import Mathlib

/-!
Shallow embedding of the service-marketplace backend (`main.py`, `schemas.py`).

Persisted documents are modelled as Lean structures; the Mongo store is a
`DB` record of lists with a fresh-id counter.  ObjectIds are modelled as
`Nat`, their string form (`str(ObjectId)` in Python) as `toString`.
Nondeterministic inputs of the code — the random salt (`secrets.token_hex`),
the fresh session token (`new_token`), the wall clock (`datetime.now`) —
are passed as explicit parameters.  The external library primitives
`hashlib.sha256` (`H`) and `datetime.isoformat` (`iso`) are parameters as
well: the code applies them, it does not define them.

Each route handler becomes a function `DB → … → Except HError α × DB`:
a Python `raise HTTPException` before any write returns `(.error e, db)`
with the store unchanged; writes thread an updated `DB`.
-/

/-- Dynamic (Python/BSON) values as they occur in this backend's documents:
strings, booleans, numbers, ObjectIds, datetimes, lists of strings,
string-valued sub-documents (the credential dict), and `None`. -/
inductive Value where
  | vnull : Value
  | vstr : String → Value
  | vbool : Bool → Value
  | vnum : Rat → Value
  | vid : Nat → Value
  | vdt : Int → Value
  | vstrList : List String → Value
  | vstrDict : List (String × String) → Value
  deriving DecidableEq, Repr

/-- Python `str(...)` on a dynamic value (`str(d.pop("_id"))` in `serialize`;
in the code only ObjectIds reach it). -/
def pyStr : Value → String
  | .vnull => "None"
  | .vstr s => s
  | .vbool b => if b then "True" else "False"
  | .vnum q => toString q
  | .vid n => toString n
  | .vdt t => toString t
  | .vstrList _ => "<list>"
  | .vstrDict _ => "<dict>"

/-- The per-entry datetime conversion of `serialize`:
`if isinstance(v, datetime): d[k] = v.astimezone(timezone.utc).isoformat()`. -/
def dtv (iso : Int → String) (p : String × Value) : String × Value :=
  match p.2 with
  | .vdt t => (p.1, .vstr (iso t))
  | _ => p

/-- `del d[k]` / the removal part of `d.pop(k)` on a dict modelled as an
association list (dict keys are unique, so filtering is the removal). -/
def eraseKey (k : String) (d : List (String × Value)) : List (String × Value) :=
  d.filter (fun p => p.1 ≠ k)

/-- Python dict assignment `d[k] = v`: overwrites in place when the key is
present, otherwise appends (dicts preserve insertion order). -/
def setKey (d : List (String × Value)) (k : String) (v : Value) :
    List (String × Value) :=
  if d.any (fun p => p.1 = k) then
    d.map (fun p => if p.1 = k then (k, v) else p)
  else
    d ++ [(k, v)]

/-- `serialize(doc)` from `main.py` lines 34–44: empty input returned as is;
`_id` popped and re-inserted as string-valued `id`; every datetime value
rendered to an ISO-8601 UTC string; all other entries untouched. -/
def serialize (iso : Int → String) (doc : List (String × Value)) :
    List (String × Value) :=
  if doc = [] then doc
  else
    let d :=
      match doc.find? (fun p => p.1 = "_id") with
      | some p => setKey (eraseKey "_id" doc) "id" (.vstr (pyStr p.2))
      | none => doc
    d.map (dtv iso)

/-- Error outcomes of the handlers, by HTTP status: 400 malformed id,
401 auth, 403 forbidden, 404 not found, 409 conflict, 422 request-schema
validation (FastAPI/pydantic). -/
inductive HError where
  | e400 | e401 | e403 | e404 | e409 | e422
  deriving DecidableEq, Repr

/-- Python `str.lower()`, structurally over the characters. -/
def lowerStr (s : String) : String := ⟨s.data.map Char.toLower⟩

/-- List prefix test backing `str.startswith`. -/
def isPre : List Char → List Char → Bool
  | [], _ => true
  | _ :: _, [] => false
  | c :: cs, d :: ds => c = d && isPre cs ds

/-- Python `str.startswith(pre)`. -/
def startsWithStr (s pre : String) : Bool := isPre pre.data s.data

/-- `s.split(" ", 1)[1]`: everything after the first space (callers only
reach it when a space exists; on a spaceless string Python would raise,
here it yields the empty remainder). -/
def afterFirstSpace : List Char → List Char
  | [] => []
  | c :: cs => if c = ' ' then cs else afterFirstSpace cs

/-- Python `str.strip()`: drop whitespace on both ends. -/
def stripStr (s : String) : String :=
  ⟨((s.data.dropWhile Char.isWhitespace).reverse.dropWhile
      Char.isWhitespace).reverse⟩

/-- A decimal digit's value. -/
def digitVal (c : Char) : Option Nat :=
  if c.toNat ≥ 48 ∧ c.toNat ≤ 57 then some (c.toNat - 48) else none

/-- Digit-list accumulator for `to_object_id`. -/
def parseDigits : List Char → Nat → Option Nat
  | [], acc => some acc
  | c :: cs, acc =>
    match digitVal c with
    | some d => parseDigits cs (acc * 10 + d)
    | none => none

/-- `to_object_id`: parse the path id string back to the store id, `none`
meaning the 400 error.  ObjectIds being modelled as `Nat` rendered with
`toString`, the parse is the decimal one; any non-id string fails, as
`ObjectId(id_str)` does. -/
def to_object_id (s : String) : Option Nat :=
  match s.data with
  | [] => none
  | cs => parseDigits cs 0

/-- Password material `{salt, hash}` as stored under `"password"`. -/
structure Cred where
  salt : String
  hash : String
  deriving DecidableEq, Repr

/-- `hash_password(password, salt)` with the digest `H` abstracted:
`hash = H(salt ++ password)`, one pass. -/
def hash_password (H : String → String) (password salt : String) : Cred :=
  { salt := salt, hash := H (salt ++ password) }

/-- `verify_password(password, salt, hash_val)`. -/
def verify_password (H : String → String) (password salt hash_val : String) :
    Bool :=
  H (salt ++ password) = hash_val

/-- A `Question` sub-document of a service (`schemas.py` / request model). -/
structure Question where
  id : String
  text : String
  type : String := "text"
  required : Bool := true
  options : Option (List String) := none
  deriving DecidableEq, Repr

/-- An availability slot `{start, end}` (ISO strings, unvalidated). -/
structure AvailabilitySlot where
  start : String
  «end» : String
  deriving DecidableEq, Repr

/-- A booking answer `{question_id, answer}`; `answer: Any` is a dynamic
value. -/
structure BookingAnswer where
  question_id : String
  answer : Value
  deriving DecidableEq, Repr

/-- A stored `user` document, exactly the dict built by `signup` plus the
store-assigned `_id`.  `password` is optional only because `login` guards
`"password" not in user`. -/
structure UserDoc where
  oid : Nat
  name : String
  email : String
  country : Option String := none
  province : Option String := none
  provider_mode : Bool := false
  avatar_url : Option String := none
  password : Option Cred := none
  tokens : List String := []
  deriving DecidableEq, Repr

/-- A stored `service` document: the `ServiceCreateRequest` dump plus
`provider_id` and `_id`.  `create_service` never writes `is_active`, so it
is absent (`none`) until an update sets it; `updated_at` likewise. -/
structure ServiceDoc where
  oid : Nat
  provider_id : String
  name : String
  description : String
  price : Rat
  category : String
  country : Option String := none
  province : Option String := none
  photos : List String := []
  videos : List String := []
  questions : List Question := []
  availability : List AvailabilitySlot := []
  is_active : Option Bool := none
  updated_at : Option Int := none
  deriving DecidableEq, Repr

/-- A stored `booking` document, exactly the dict built by `create_booking`
plus `_id`; `updated_at` appears once a status update stamps it. -/
structure BookingDoc where
  oid : Nat
  service_id : String
  provider_id : String
  customer_id : String
  scheduled_start : Option String := none
  scheduled_end : Option String := none
  message : Option String := none
  answers : List BookingAnswer := []
  status : String := "pending"
  total_price : Option Rat := none
  updated_at : Option Int := none
  deriving DecidableEq, Repr

/-- The persistent store: the three collections plus the store's fresh-id
supply (each insert consumes `nextId`). -/
structure DB where
  users : List UserDoc := []
  services : List ServiceDoc := []
  bookings : List BookingDoc := []
  nextId : Nat := 0
  deriving DecidableEq, Repr

/-- Mongo `update_one`: update the first document matching the filter. -/
def updateFirst (p : α → Bool) (g : α → α) : List α → List α
  | [] => []
  | x :: xs => if p x then g x :: xs else x :: updateFirst p g xs

/-- Mongo `delete_one`: delete the first document matching the filter. -/
def deleteFirst (p : α → Bool) : List α → List α
  | [] => []
  | x :: xs => if p x then xs else x :: deleteFirst p xs

/-- `current["id"]` of an authenticated user: `serialize` turns `_id` into
its string form. -/
def currentId (u : UserDoc) : String := toString u.oid

/-- The raw user document as the dict that `find_one` returns (`_id` first,
then the `signup` insertion order) — input to `serialize` in `login`. -/
def userDocToValues (u : UserDoc) : List (String × Value) :=
  [("_id", .vid u.oid),
   ("name", .vstr u.name),
   ("email", .vstr u.email),
   ("country", match u.country with | some c => .vstr c | none => .vnull),
   ("province", match u.province with | some c => .vstr c | none => .vnull),
   ("provider_mode", .vbool u.provider_mode),
   ("avatar_url", match u.avatar_url with | some c => .vstr c | none => .vnull),
   ("password", match u.password with
                | some c => .vstrDict [("salt", c.salt), ("hash", c.hash)]
                | none => .vnull),
   ("tokens", .vstrList u.tokens)]

/-- Header parsing of `get_current_user`: require the (case-insensitive)
`bearer ` scheme, then `authorization.split(" ", 1)[1].strip()`. -/
def parseBearer (a : String) : Option String :=
  if startsWithStr (lowerStr a) "bearer " then
    some (stripStr ⟨afterFirstSpace a.data⟩)
  else
    none

/-- `get_current_user` (`main.py` 136–145): missing/empty header → 401,
wrong scheme → 401, else resolve the token to the first user whose
`tokens` array contains it, 401 when none does. -/
def get_current_user (db : DB) (authorization : Option String) :
    Except HError UserDoc :=
  match authorization with
  | none => .error .e401
  | some a =>
    if a = "" then .error .e401
    else
      match parseBearer a with
      | none => .error .e401
      | some token =>
        match db.users.find? (fun u => u.tokens.contains token) with
        | none => .error .e401
        | some u => .ok u

/-- Request body of `POST /auth/signup`. -/
structure SignupRequest where
  name : String
  email : String
  password : String
  country : Option String := none
  province : Option String := none
  deriving DecidableEq, Repr

/-- Response of `signup`: the hand-built user view plus the token. -/
structure SignupResp where
  id : String
  name : String
  email : String
  provider_mode : Bool
  token : String
  deriving DecidableEq, Repr

/-- `signup` (`main.py` 188–206).  `salt` and `token` stand for the values
drawn from `secrets`; `H` is the digest.  Duplicate normalized email →
409 and no write; otherwise insert the user document and return the view
and token. -/
def signup (db : DB) (H : String → String) (salt token : String)
    (payload : SignupRequest) : Except HError SignupResp × DB :=
  match db.users.find? (fun u => u.email = lowerStr payload.email) with
  | some _ => (.error .e409, db)
  | none =>
    let pwd := hash_password H payload.password salt
    let user_doc : UserDoc :=
      { oid := db.nextId
        name := payload.name
        email := lowerStr payload.email
        country := payload.country
        province := payload.province
        provider_mode := false
        avatar_url := none
        password := some pwd
        tokens := [token] }
    (.ok { id := toString db.nextId, name := payload.name,
           email := payload.email, provider_mode := false, token := token },
     { db with users := db.users ++ [user_doc], nextId := db.nextId + 1 })

/-- Request body of `POST /auth/login`. -/
structure LoginRequest where
  email : String
  password : String
  deriving DecidableEq, Repr

/-- `login` (`main.py` 209–218).  `token` is the fresh `new_token()` value.
Note the returned view serializes the document **as read before** the
`$push` of the new token. -/
def login (db : DB) (H : String → String) (iso : Int → String) (token : String)
    (payload : LoginRequest) :
    Except HError (List (String × Value) × String) × DB :=
  match db.users.find? (fun u => u.email = lowerStr payload.email) with
  | none => (.error .e401, db)
  | some user =>
    match user.password with
    | none => (.error .e401, db)
    | some cred =>
      if verify_password H payload.password cred.salt cred.hash then
        let db' :=
          { db with
            users := updateFirst (fun u => u.oid = user.oid)
              (fun u => { u with tokens := u.tokens ++ [token] }) db.users }
        (.ok (serialize iso (userDocToValues user), token), db')
      else
        (.error .e401, db)

/-- `set_provider_mode` (`main.py` 226–229): `$set` the flag on the document
whose `_id` is `to_object_id(current["id"])`. -/
def set_provider_mode (db : DB) (current : UserDoc) (enabled : Bool) :
    Except HError Bool × DB :=
  match to_object_id (currentId current) with
  | none => (.error .e400, db)
  | some oid =>
    (.ok enabled,
     { db with
       users := updateFirst (fun u => u.oid = oid)
         (fun u => { u with provider_mode := enabled }) db.users })

/-- Request body of `POST /services` (`ServiceCreateRequest`). -/
structure ServiceCreateRequest where
  name : String
  description : String
  price : Rat
  category : String
  country : Option String := none
  province : Option String := none
  photos : List String := []
  videos : List String := []
  questions : List Question := []
  availability : List AvailabilitySlot := []
  deriving DecidableEq, Repr

/-- Request body of `PUT /services/{id}` (`ServiceUpdateRequest`), the
creation fields plus optional `is_active`. -/
structure ServiceUpdateRequest extends ServiceCreateRequest where
  is_active : Option Bool := none
  deriving DecidableEq, Repr

/-- Modelled from the spec: `create_document` lives in `database.py`, which
is not among the given sources; per the spec the store offers an atomic
insert that assigns the document its fresh primary id.  Modelled as: take
`nextId` as the new `_id`, append the document, bump the counter.  The
three collection-specific wrappers below instantiate it. -/
def insertService (db : DB) (mk : Nat → ServiceDoc) : Nat × DB :=
  (db.nextId,
   { db with services := db.services ++ [mk db.nextId],
             nextId := db.nextId + 1 })

/-- Modelled from the spec: the booking-collection insert (`create_document`
of `database.py`), as for `insertService`. -/
def insertBooking (db : DB) (mk : Nat → BookingDoc) : Nat × DB :=
  (db.nextId,
   { db with bookings := db.bookings ++ [mk db.nextId],
             nextId := db.nextId + 1 })

/-- `create_service` (`main.py` 235–243): provider-mode gate, then insert
`data.model_dump()` plus `provider_id = current["id"]`, then re-read the
inserted document.  The result is the re-read document (the handler
returns it serialized). -/
def create_service (db : DB) (current : UserDoc) (data : ServiceCreateRequest) :
    Except HError (Option ServiceDoc) × DB :=
  if !current.provider_mode then (.error .e403, db)
  else
    let (new_id, db') := insertService db (fun oid =>
      { oid := oid
        provider_id := currentId current
        name := data.name
        description := data.description
        price := data.price
        category := data.category
        country := data.country
        province := data.province
        photos := data.photos
        videos := data.videos
        questions := data.questions
        availability := data.availability
        is_active := none
        updated_at := none })
    (.ok (db'.services.find? (fun s => s.oid = new_id)), db')

/-- The `$set` dict of `update_service`: every non-`None` dumped field
(`name`, `description`, `price`, `category`, `photos`, `videos`,
`questions`, `availability` are always present; `country`, `province`,
`is_active` only when given), plus the `updated_at` stamp. -/
def applyServiceUpdate (svc : ServiceDoc) (p : ServiceUpdateRequest)
    (now : Int) : ServiceDoc :=
  { svc with
    name := p.name
    description := p.description
    price := p.price
    category := p.category
    photos := p.photos
    videos := p.videos
    questions := p.questions
    availability := p.availability
    country := match p.country with | some c => some c | none => svc.country
    province := match p.province with | some c => some c | none => svc.province
    is_active := match p.is_active with | some b => some b | none => svc.is_active
    updated_at := some now }

/-- `update_service` (`main.py` 275–286): parse id (400), look up (404),
ownership (403), apply the partial `$set`, re-read and return. -/
def update_service (db : DB) (current : UserDoc) (service_id : String)
    (payload : ServiceUpdateRequest) (now : Int) :
    Except HError (Option ServiceDoc) × DB :=
  match to_object_id service_id with
  | none => (.error .e400, db)
  | some n =>
    match db.services.find? (fun s => s.oid = n) with
    | none => (.error .e404, db)
    | some svc =>
      if svc.provider_id ≠ currentId current then (.error .e403, db)
      else
        let db' :=
          { db with
            services := updateFirst (fun s => s.oid = svc.oid)
              (fun s => applyServiceUpdate s payload now) db.services }
        (.ok (db'.services.find? (fun s => s.oid = svc.oid)), db')

/-- `delete_service` (`main.py` 289–297): parse id (400), look up (404),
ownership (403), `delete_one`, return `{"deleted": true}`. -/
def delete_service (db : DB) (current : UserDoc) (service_id : String) :
    Except HError Bool × DB :=
  match to_object_id service_id with
  | none => (.error .e400, db)
  | some n =>
    match db.services.find? (fun s => s.oid = n) with
    | none => (.error .e404, db)
    | some svc =>
      if svc.provider_id ≠ currentId current then (.error .e403, db)
      else
        (.ok true,
         { db with
           services := deleteFirst (fun s => s.oid = svc.oid) db.services })

/-- Request body of `POST /bookings`. -/
structure BookingCreateRequest where
  service_id : String
  scheduled_start : Option String := none
  scheduled_end : Option String := none
  message : Option String := none
  answers : List BookingAnswer := []
  deriving DecidableEq, Repr

/-- `create_booking` (`main.py` 303–321): parse and look up the service
(400/404), buld the booking document with `provider_id` denormalized from
the service, `status = "pending"` and `total_price` snapshotted from
`svc.get("price")`, insert it, re-read and return. -/
def create_booking (db : DB) (current : UserDoc) (data : BookingCreateRequest) :
    Except HError (Option BookingDoc) × DB :=
  match to_object_id data.service_id with
  | none => (.error .e400, db)
  | some n =>
    match db.services.find? (fun s => s.oid = n) with
    | none => (.error .e404, db)
    | some svc =>
      let (new_id, db') := insertBooking db (fun oid =>
        { oid := oid
          service_id := data.service_id
          provider_id := svc.provider_id
          customer_id := currentId current
          scheduled_start := data.scheduled_start
          scheduled_end := data.scheduled_end
          message := data.message
          answers := data.answers
          status := "pending"
          total_price := some svc.price
          updated_at := none })
      (.ok (db'.bookings.find? (fun b => b.oid = new_id)), db')

/-- The pydantic pattern `^(accepted|declined|canceled)$` on
`BookingStatusUpdate.status`. -/
def validBookingStatus (s : String) : Bool :=
  s = "accepted" || s = "declined" || s = "canceled"

/-- `update_booking_status` (`main.py` 331–340), with the request-schema
validation of `BookingStatusUpdate` (`main.py` 128–129) modelled as the
leading 422 guard (FastAPI rejects the request before the handler runs).
Then: parse id (400), look up (404), provider-ownership (403), `$set` the
status and the `updated_at` stamp, re-read and return. -/
def update_booking_status (db : DB) (current : UserDoc) (booking_id : String)
    (status : String) (now : Int) :
    Except HError (Option BookingDoc) × DB :=
  if !validBookingStatus status then (.error .e422, db)
  else
    match to_object_id booking_id with
    | none => (.error .e400, db)
    | some n =>
      match db.bookings.find? (fun b => b.oid = n) with
      | none => (.error .e404, db)
      | some bk =>
        if bk.provider_id ≠ currentId current then (.error .e403, db)
        else
          let db' :=
            { db with
              bookings := updateFirst (fun b => b.oid = bk.oid)
                (fun b => { b with status := status, updated_at := some now })
                db.bookings }
          (.ok (db'.bookings.find? (fun b => b.oid = bk.oid)), db')

deriving instance DecidableEq for Except

/-- `update_one` leaves a prefix without matches untouched. -/
theorem updateFirst_append_left {α} (p : α → Bool) (g : α → α)
    (l₁ l₂ : List α) (h : ∀ a ∈ l₁, ¬ p a) :
    updateFirst p g (l₁ ++ l₂) = l₁ ++ updateFirst p g l₂ := by
  induction l₁ with
  | nil => rfl
  | cons x xs ih =>
    have hx : ¬ p x := h x (by simp)
    simp only [List.cons_append, updateFirst, Bool.not_eq_true] at *
    rw [if_neg (by simpa using hx)]
    simp only [List.append_eq]
    rw [ih (fun a ha => h a (by simp [ha]))]

/-- `delete_one` leaves a prefix without matches untouched. -/
theorem deleteFirst_append_left {α} (p : α → Bool) (l₁ l₂ : List α)
    (h : ∀ a ∈ l₁, ¬ p a) :
    deleteFirst p (l₁ ++ l₂) = l₁ ++ deleteFirst p l₂ := by
  induction l₁ with
  | nil => rfl
  | cons x xs ih =>
    have hx : ¬ p x := h x (by simp)
    simp only [List.cons_append, deleteFirst] at *
    rw [if_neg (by simpa using hx)]
    simp only [List.append_eq]
    rw [ih (fun a ha => h a (by simp [ha]))]

/-- Re-reading with the same filter after `update_one` yields the updated
first match, provided the update preserves the filter. -/
theorem find?_updateFirst {α} (p : α → Bool) (g : α → α) (l : List α)
    (hg : ∀ x, p x = true → p (g x) = true) :
    (updateFirst p g l).find? p = (l.find? p).map g := by
  induction l with
  | nil => rfl
  | cons x xs ih =>
    by_cases hx : p x = true
    · simp [updateFirst, hx, List.find?_cons_of_pos, hg x hx]
    · simp only [updateFirst, hx, if_false, Bool.false_eq_true]
      rw [List.find?_cons_of_neg _ (by simp [hx]),
          List.find?_cons_of_neg _ (by simp [hx]), ih]

/-- Membership after `update_one`: every element is an original or the
image of an original. -/
theorem mem_updateFirst {α} (p : α → Bool) (g : α → α) (l : List α)
    (x : α) (hx : x ∈ updateFirst p g l) :
    x ∈ l ∨ ∃ y ∈ l, p y ∧ x = g y := by
  induction l with
  | nil => simp [updateFirst] at hx
  | cons a as ih =>
    by_cases ha : p a = true
    · simp only [updateFirst, ha, if_true, List.mem_cons] at hx
      rcases hx with hx | hx
      · exact Or.inr ⟨a, by simp, ha, hx⟩
      · exact Or.inl (by simp [hx])
    · simp only [updateFirst, ha, if_false, Bool.false_eq_true,
        List.mem_cons] at hx
      rcases hx with hx | hx
      · exact Or.inl (by simp [hx])
      · rcases ih hx with h | ⟨y, hy, hpy, hxy⟩
        · exact Or.inl (by simp [h])
        · exact Or.inr ⟨y, by simp [hy], hpy, hxy⟩

/-- C8: `serialize` on the empty record is the identity; on a record
without a storage id every entry is kept in place with only
timestamp-typed values rendered to strings; on a record carrying `_id`
(and, as for every raw store document, no prior `id` key) the `_id` entry
is replaced by a string-valued `id` and every other entry — credential
material and token set included — passes through, timestamps rendered,
nothing removed or redacted. -/
theorem serialize_spec (iso : Int → String) (doc : List (String × Value))
    (hid : "id" ∉ doc.map Prod.fst) :
    serialize iso ([] : List (String × Value)) = [] ∧
    (doc.find? (fun p => p.1 = "_id") = none →
      serialize iso doc = doc.map (dtv iso)) ∧
    (∀ q, doc.find? (fun p => p.1 = "_id") = some q →
      serialize iso doc =
        (doc.filter (fun p => p.1 ≠ "_id")).map (dtv iso)
          ++ [("id", .vstr (pyStr q.2))]) := by
  refine ⟨rfl, ?_, ?_⟩
  · intro hnone
    by_cases hd : doc = []
    · subst hd; rfl
    · simp [serialize, hd, hnone]
  · intro q hq
    have hdoc : doc ≠ [] := by
      intro h; subst h; simp at hq
    have hnotid : ¬ (eraseKey "_id" doc).any (fun p => p.1 = "id") := by
      simp only [eraseKey, List.any_eq_true, not_exists]
      rintro ⟨k, v⟩ ⟨hmem, hkid⟩
      have hk : (k, v) ∈ doc := List.mem_of_mem_filter hmem
      simp only [decide_eq_true_eq] at hkid
      exact hid (by simpa [hkid] using List.mem_map_of_mem Prod.fst hk)
    simp only [serialize, hdoc, if_false, hq, setKey]
    rw [if_neg hnotid]
    simp [eraseKey, dtv]

/-- A concrete ISO renderer standing in for `isoformat`. -/
def isoW : Int → String := fun _ => "1970-01-01T00:00:00+00:00"

/-- A concrete raw user record: store id, a timestamp, credential material
and a token set. -/
def docW : List (String × Value) :=
  [("_id", .vid 7), ("created_at", .vdt 0),
   ("password", .vstrDict [("salt", "s"), ("hash", "h")]),
   ("tokens", .vstrList ["t"])]

/-- Witness for C8 at `docW`. -/
theorem serialize_spec_witness :
    serialize isoW ([] : List (String × Value)) = [] ∧
    (docW.find? (fun p => p.1 = "_id") = none →
      serialize isoW docW = docW.map (dtv isoW)) ∧
    (∀ q, docW.find? (fun p => p.1 = "_id") = some q →
      serialize isoW docW =
        (docW.filter (fun p => p.1 ≠ "_id")).map (dtv isoW)
          ++ [("id", .vstr (pyStr q.2))]) :=
  serialize_spec isoW docW (by decide)

/-- Success path of `update_booking_status`: a valid status, a parseable
id whose booking exists, and the provider as caller give exactly the
`$set` of `status` and `updated_at` on that document, returned re-read. -/
theorem update_booking_status_ok (db : DB) (u : UserDoc) (bid : String)
    (n : Nat) (s : String) (now : Int) (bk : BookingDoc)
    (hparse : to_object_id bid = some n)
    (hfind : db.bookings.find? (fun b => b.oid = n) = some bk)
    (howner : bk.provider_id = currentId u)
    (hs : validBookingStatus s = true) :
    update_booking_status db u bid s now =
      (.ok (some { bk with status := s, updated_at := some now }),
       { db with
         bookings := updateFirst (fun b => b.oid = bk.oid)
           (fun b => { b with status := s, updated_at := some now })
           db.bookings }) := by
  have hbkn : bk.oid = n := by
    have := List.find?_some hfind
    simpa using this
  subst hbkn
  simp only [update_booking_status, hs, Bool.not_true, Bool.false_eq_true,
    if_false, hparse, hfind]
  rw [if_neg (by simp [howner])]
  have hre : (updateFirst (fun b => b.oid = bk.oid)
      (fun b => { b with status := s, updated_at := some now })
      db.bookings).find? (fun b => b.oid = bk.oid)
      = some { bk with status := s, updated_at := some now } := by
    rw [find?_updateFirst _ _ _ (fun x hx => by simpa using hx), hfind]
    rfl
  simp [hre]

/-- C2: for an existing booking whose provider is the caller, any status in
{accepted, declined, canceled} is applied unconditionally — whatever the
current status, so flips may be repeated — with the `updated_at` stamp,
and any other status string is rejected by the request-schema pattern. -/
theorem booking_status_transitions (db : DB) (u : UserDoc) (bid : String)
    (n : Nat) (s : String) (now : Int) (bk : BookingDoc)
    (hparse : to_object_id bid = some n)
    (hfind : db.bookings.find? (fun b => b.oid = n) = some bk)
    (howner : bk.provider_id = currentId u) :
    (validBookingStatus s = true →
      ∃ db', update_booking_status db u bid s now =
        (.ok (some { bk with status := s, updated_at := some now }), db')) ∧
    (validBookingStatus s = false →
      update_booking_status db u bid s now = (.error .e422, db)) := by
  constructor
  · intro hs
    exact ⟨_, update_booking_status_ok db u bid n s now bk hparse hfind howner hs⟩
  · intro hs
    simp [update_booking_status, hs]

/-- Concrete digest: `H(x) = x ++ "#"`. -/
def Hx (s : String) : String := s ++ "#"

/-- Concrete caller owning service/booking fixtures below. -/
def uP : UserDoc := { oid := 1, name := "P", email := "p@x.com" }

/-- A booking fixture already in a non-pending state. -/
def bk0 : BookingDoc :=
  { oid := 2, service_id := "0", provider_id := "1", customer_id := "3",
    status := "accepted" }

/-- Store fixture holding `bk0`. -/
def dbB : DB := { bookings := [bk0], nextId := 3 }

/-- Witness for C2: the provider flips an `accepted` booking to
`declined`. -/
theorem booking_status_transitions_witness :
    (validBookingStatus "declined" = true →
      ∃ db', update_booking_status dbB uP "2" "declined" 5 =
        (.ok (some { bk0 with status := "declined", updated_at := some 5 }),
         db')) ∧
    (validBookingStatus "declined" = false →
      update_booking_status dbB uP "2" "declined" 5 = (.error .e422, dbB)) :=
  booking_status_transitions dbB uP "2" 2 "declined" 5 bk0
    (by decide) (by decide) (by decide)

/-- C10: a successful status update changes only `status` and `updated_at`
of the targeted booking document — `service_id`, `provider_id`,
`customer_id`, `scheduled_start`, `scheduled_end`, `message`, `answers`
and `total_price` are unchanged — and rewrites no other booking. -/
theorem booking_status_frame (db : DB) (u : UserDoc) (bid : String)
    (n : Nat) (s : String) (now : Int) (bk : BookingDoc)
    (hparse : to_object_id bid = some n)
    (hfind : db.bookings.find? (fun b => b.oid = n) = some bk)
    (howner : bk.provider_id = currentId u)
    (hs : validBookingStatus s = true) :
    ∃ bk', update_booking_status db u bid s now =
      (.ok (some bk'),
       { db with
         bookings := updateFirst (fun b => b.oid = bk.oid)
           (fun b => { b with status := s, updated_at := some now })
           db.bookings }) ∧
      bk'.service_id = bk.service_id ∧ bk'.provider_id = bk.provider_id ∧
      bk'.customer_id = bk.customer_id ∧
      bk'.scheduled_start = bk.scheduled_start ∧
      bk'.scheduled_end = bk.scheduled_end ∧ bk'.message = bk.message ∧
      bk'.answers = bk.answers ∧ bk'.total_price = bk.total_price ∧
      bk'.status = s ∧ bk'.updated_at = some now :=
  ⟨{ bk with status := s, updated_at := some now },
   update_booking_status_ok db u bid n s now bk hparse hfind howner hs,
   rfl, rfl, rfl, rfl, rfl, rfl, rfl, rfl, rfl, rfl⟩

/-- Witness for C10 at the `dbB` fixture. -/
theorem booking_status_frame_witness :
    ∃ bk', update_booking_status dbB uP "2" "canceled" 9 =
      (.ok (some bk'),
       { dbB with
         bookings := updateFirst (fun b => b.oid = bk0.oid)
           (fun b => { b with status := "canceled", updated_at := some 9 })
           dbB.bookings }) ∧
      bk'.service_id = bk0.service_id ∧ bk'.provider_id = bk0.provider_id ∧
      bk'.customer_id = bk0.customer_id ∧
      bk'.scheduled_start = bk0.scheduled_start ∧
      bk'.scheduled_end = bk0.scheduled_end ∧ bk'.message = bk0.message ∧
      bk'.answers = bk0.answers ∧ bk'.total_price = bk0.total_price ∧
      bk'.status = "canceled" ∧ bk'.updated_at = some 9 :=
  booking_status_frame dbB uP "2" 2 "canceled" 9 bk0
    (by decide) (by decide) (by decide) (by decide)

/-- C1: for service update/delete and booking status update, a missing
document yields 404 with the store untouched — decided before any
ownership comparison, so a bad id is never reported as 403 — and an
existing document owned by someone else yields 403 with the store
untouched. -/
theorem existence_then_ownership (db : DB) (u : UserDoc) (sid bid : String)
    (ns nb : Nat) (p : ServiceUpdateRequest) (s : String) (now : Int)
    (hps : to_object_id sid = some ns)
    (hpb : to_object_id bid = some nb)
    (hs : validBookingStatus s = true) :
    (db.services.find? (fun x => x.oid = ns) = none →
      update_service db u sid p now = (.error .e404, db) ∧
      delete_service db u sid = (.error .e404, db)) ∧
    (∀ svc, db.services.find? (fun x => x.oid = ns) = some svc →
      svc.provider_id ≠ currentId u →
      update_service db u sid p now = (.error .e403, db) ∧
      delete_service db u sid = (.error .e403, db)) ∧
    (db.bookings.find? (fun x => x.oid = nb) = none →
      update_booking_status db u bid s now = (.error .e404, db)) ∧
    (∀ bk, db.bookings.find? (fun x => x.oid = nb) = some bk →
      bk.provider_id ≠ currentId u →
      update_booking_status db u bid s now = (.error .e403, db)) := by
  refine ⟨?_, ?_, ?_, ?_⟩
  · intro hnone
    constructor
    · simp [update_service, hps, hnone]
    · simp [delete_service, hps, hnone]
  · intro svc hfind hne
    constructor
    · simp [update_service, hps, hfind, hne]
    · simp [delete_service, hps, hfind, hne]
  · intro hnone
    simp [update_booking_status, hs, hpb, hnone]
  · intro bk hfind hne
    simp [update_booking_status, hs, hpb, hfind, hne]

/-- An update request fixture reusing the creation fields. -/
def reqU : ServiceUpdateRequest :=
  { name := "n2", description := "d2", price := 200, category := "c" }

/-- A caller fixture who owns nothing in the fixture store. -/
def uC : UserDoc := { oid := 3, name := "C", email := "c@x.com" }

/-- Witness for C1 at the fixture store: service id 7 and booking id 7 are
absent (404), and `bk0` (id 2) is not owned by caller `uC` (403). -/
theorem existence_then_ownership_witness :
    (dbB.services.find? (fun x => x.oid = 7) = none →
      update_service dbB uC "7" reqU 5 = (.error .e404, dbB) ∧
      delete_service dbB uC "7" = (.error .e404, dbB)) ∧
    (∀ svc, dbB.services.find? (fun x => x.oid = 7) = some svc →
      svc.provider_id ≠ currentId uC →
      update_service dbB uC "7" reqU 5 = (.error .e403, dbB) ∧
      delete_service dbB uC "7" = (.error .e403, dbB)) ∧
    (dbB.bookings.find? (fun x => x.oid = 2) = none →
      update_booking_status dbB uC "2" "accepted" 5 = (.error .e404, dbB)) ∧
    (∀ bk, dbB.bookings.find? (fun x => x.oid = 2) = some bk →
      bk.provider_id ≠ currentId uC →
      update_booking_status dbB uC "2" "accepted" 5 = (.error .e403, dbB)) :=
  existence_then_ownership dbB uC "7" "2" 7 2 reqU "accepted" 5
    (by decide) (by decide) (by decide)

/-- C3: if any stored user already carries the normalized (lowercased)
form of the submitted email — whatever the submission's casing — signup
fails with 409 and writes nothing; and every successful signup stores
exactly one new user whose stored email is the lowercased submission. -/
theorem signup_email_uniqueness (db : DB) (H : String → String)
    (salt token : String) (p : SignupRequest) :
    (∀ u ∈ db.users, u.email = lowerStr p.email →
      signup db H salt token p = (.error .e409, db)) ∧
    (∀ r db', signup db H salt token p = (.ok r, db') →
      ∃ nu, db'.users = db.users ++ [nu] ∧ nu.email = lowerStr p.email) := by
  constructor
  · intro u hu heq
    have hsome : (db.users.find? (fun v => v.email = lowerStr p.email)).isSome := by
      rw [List.find?_isSome]
      exact ⟨u, hu, by simp [heq]⟩
    rcases Option.isSome_iff_exists.mp hsome with ⟨w, hw⟩
    simp [signup, hw]
  · intro r db' hok
    rcases hfind : db.users.find? (fun v => v.email = lowerStr p.email) with _ | w
    · have h2 : ({ db with
          users := db.users ++
            [{ oid := db.nextId, name := p.name, email := lowerStr p.email,
               country := p.country, province := p.province,
               provider_mode := false, avatar_url := none,
               password := some (hash_password H p.password salt),
               tokens := [token] }],
          nextId := db.nextId + 1 } : DB) = db' := by
        simpa [signup, hfind] using congrArg Prod.snd hok
      exact ⟨_, by rw [← h2], rfl⟩
    · exfalso
      simp [signup, hfind] at hok

/-- A user fixture already registered as `x@y.com`. -/
def uE : UserDoc := { oid := 0, name := "E", email := "x@y.com" }

/-- Store fixture holding `uE`. -/
def dbE : DB := { users := [uE], nextId := 1 }

/-- Witness for C3: a second signup as `X@Y.Com` — the same email in a
different casing — hits the conflict branch of the theorem at `dbE`. -/
theorem signup_email_uniqueness_witness :
    signup dbE Hx "s" "t" { name := "F", email := "X@Y.Com", password := "p" }
      = (.error .e409, dbE) :=
  (signup_email_uniqueness dbE Hx "s" "t"
      { name := "F", email := "X@Y.Com", password := "p" }).1
    uE (by decide) (by decide)

/-- C5: a successful signup inserts exactly one user, with
`provider_mode = false`, credential `{salt, H(salt ++ password)}` from the
single-pass digest, and `tokens = [token]`; and the returned token
authenticates immediately: any bearer header carrying it resolves to the
new user (the token being fresh). -/
theorem signup_creates_user (db : DB) (H : String → String)
    (salt token : String) (p : SignupRequest)
    (hnone : db.users.find? (fun v => v.email = lowerStr p.email) = none)
    (hfresh : ∀ v ∈ db.users, token ∉ v.tokens) :
    ∃ nu : UserDoc,
      signup db H salt token p =
        (.ok { id := toString db.nextId, name := p.name, email := p.email,
               provider_mode := false, token := token },
         { db with users := db.users ++ [nu], nextId := db.nextId + 1 }) ∧
      nu.provider_mode = false ∧
      nu.password = some (hash_password H p.password salt) ∧
      nu.tokens = [token] ∧
      (∀ a, parseBearer a = some token →
        get_current_user
          { db with users := db.users ++ [nu], nextId := db.nextId + 1 }
          (some a) = .ok nu) := by
  refine ⟨{ oid := db.nextId, name := p.name, email := lowerStr p.email,
            country := p.country, province := p.province,
            provider_mode := false, avatar_url := none,
            password := some (hash_password H p.password salt),
            tokens := [token] }, ?_, rfl, rfl, rfl, ?_⟩
  · simp [signup, hnone]
  · intro a ha
    have hne : a ≠ "" := by
      intro h
      subst h
      rw [show parseBearer "" = none from by decide] at ha
      exact Option.noConfusion ha
    have hpre : db.users.find? (fun u => decide (token ∈ u.tokens)) = none := by
      rw [List.find?_eq_none]
      intro v hv
      simpa using hfresh v hv
    simp [get_current_user, hne, ha, List.find?_append, List.contains, hpre]

/-- Witness for C5 at the empty store. -/
theorem signup_creates_user_witness :
    ∃ nu : UserDoc,
      signup {} Hx "s" "t" { name := "N", email := "A@x.com", password := "pw" } =
        (.ok { id := toString (0 : Nat), name := "N", email := "A@x.com",
               provider_mode := false, token := "t" },
         { ({} : DB) with users := ({} : DB).users ++ [nu], nextId := 0 + 1 }) ∧
      nu.provider_mode = false ∧
      nu.password = some (hash_password Hx "pw" "s") ∧
      nu.tokens = ["t"] ∧
      (∀ a, parseBearer a = some "t" →
        get_current_user
          { ({} : DB) with users := ({} : DB).users ++ [nu], nextId := 0 + 1 }
          (some a) = .ok nu) :=
  signup_creates_user {} Hx "s" "t"
    { name := "N", email := "A@x.com", password := "pw" }
    (by decide) (by decide)

/-- The booking document dict built by `create_booking` for caller `u`,
request `d` and referenced service `svc`, before insertion. -/
def bookingDocOf (db : DB) (u : UserDoc) (d : BookingCreateRequest)
    (svc : ServiceDoc) : BookingDoc :=
  { oid := db.nextId, service_id := d.service_id,
    provider_id := svc.provider_id, customer_id := currentId u,
    scheduled_start := d.scheduled_start, scheduled_end := d.scheduled_end,
    message := d.message, answers := d.answers, status := "pending",
    total_price := some svc.price, updated_at := none }

/-- C7: a created booking snapshots the referenced service's price into
`total_price`; `update_service` — any caller, any payload (price changes
included), any outcome — never touches the bookings collection, so the
snapshot never moves. -/
theorem booking_price_snapshot (db : DB) (u : UserDoc)
    (d : BookingCreateRequest) (n : Nat) (svc : ServiceDoc)
    (hparse : to_object_id d.service_id = some n)
    (hfind : db.services.find? (fun s => s.oid = n) = some svc)
    (hfresh : ∀ b ∈ db.bookings, b.oid ≠ db.nextId) :
    ∃ bk db1,
      create_booking db u d = (.ok (some bk), db1) ∧
      bk.total_price = some svc.price ∧
      db1.bookings = db.bookings ++ [bk] ∧
      (∀ u2 sid pl now2,
        ((update_service db1 u2 sid pl now2).2).bookings = db1.bookings) ∧
      (∀ u2 sid pl now2, ∃ b,
        ((update_service db1 u2 sid pl now2).2).bookings.find?
            (fun x => x.oid = bk.oid) = some b ∧
        b.total_price = some svc.price) := by
  have hb : (db.bookings ++ [bookingDocOf db u d svc]).find?
      (fun b => b.oid = db.nextId) = some (bookingDocOf db u d svc) := by
    rw [List.find?_append]
    have h1 : db.bookings.find? (fun b => b.oid = db.nextId) = none := by
      rw [List.find?_eq_none]
      intro b hbm
      simpa using hfresh b hbm
    simp [h1, bookingDocOf]
  have hframe : ∀ (db1 : DB) u2 sid pl now2,
      ((update_service db1 u2 sid pl now2).2).bookings = db1.bookings := by
    intro db1 u2 sid pl now2
    simp only [update_service]
    split
    · rfl
    · split
      · rfl
      · split
        · rfl
        · rfl
  refine ⟨bookingDocOf db u d svc,
    { db with
      bookings := db.bookings ++ [bookingDocOf db u d svc],
      nextId := db.nextId + 1 },
    ?_, rfl, rfl, fun u2 sid pl now2 => hframe _ u2 sid pl now2, ?_⟩
  · have hb' := hb
    simp only [bookingDocOf] at hb'
    simp only [create_booking, hparse, hfind, insertBooking]
    rw [hb']
    rfl
  · intro u2 sid pl now2
    refine ⟨bookingDocOf db u d svc, ?_, rfl⟩
    rw [hframe]
    have : (bookingDocOf db u d svc).oid = db.nextId := rfl
    rw [this]
    exact hb

/-- A service fixture owned by provider `uP` (id 1), priced 100. -/
def svc0 : ServiceDoc :=
  { oid := 0, provider_id := "1", name := "s", description := "d",
    price := 100, category := "c" }

/-- Store fixture holding `svc0`. -/
def dbS : DB := { users := [uP], services := [svc0], nextId := 4 }

/-- Witness for C7: book `svc0` at price 100 from `dbS`. -/
theorem booking_price_snapshot_witness :
    ∃ bk db1,
      create_booking dbS uC { service_id := "0" } = (.ok (some bk), db1) ∧
      bk.total_price = some svc0.price ∧
      db1.bookings = dbS.bookings ++ [bk] ∧
      (∀ u2 sid pl now2,
        ((update_service db1 u2 sid pl now2).2).bookings = db1.bookings) ∧
      (∀ u2 sid pl now2, ∃ b,
        ((update_service db1 u2 sid pl now2).2).bookings.find?
            (fun x => x.oid = bk.oid) = some b ∧
        b.total_price = some svc0.price) :=
  booking_price_snapshot dbS uC { service_id := "0" } 0 svc0
    (by decide) (by decide) (by decide)

/-- The service document dict built by `create_service` for caller
`current` and request `data`, before insertion. -/
def serviceDocOf (db : DB) (current : UserDoc) (data : ServiceCreateRequest) :
    ServiceDoc :=
  { oid := db.nextId, provider_id := currentId current, name := data.name,
    description := data.description, price := data.price,
    category := data.category, country := data.country,
    province := data.province, photos := data.photos, videos := data.videos,
    questions := data.questions, availability := data.availability,
    is_active := none, updated_at := none }

/-- Whether a handler outcome is a success. -/
def isOkE {e a : Type} : Except e a → Bool
  | .ok _ => true
  | .error _ => false

/-- `set_provider_mode` writes only to the users collection. -/
theorem set_provider_mode_keeps_services (db : DB) (c : UserDoc) (b : Bool) :
    (set_provider_mode db c b).2.services = db.services := by
  simp only [set_provider_mode]
  split
  · rfl
  · rfl

/-- C6: with `provider_mode = false` the creation is refused (403) and the
store untouched; after `set_provider_mode true` the same request succeeds
and the created service is owned by the caller; and after toggling
provider mode off again, the owner's update and delete on that service
still succeed — ownership is not retracted. -/
theorem provider_mode_gate (db : DB) (u : UserDoc) (l1 l2 : List UserDoc)
    (d : ServiceCreateRequest) (pl : ServiceUpdateRequest) (now2 : Int)
    (hsplit : db.users = l1 ++ u :: l2)
    (hl1 : ∀ v ∈ l1, v.oid ≠ u.oid)
    (hmode : u.provider_mode = false)
    (hparseU : to_object_id (currentId u) = some u.oid)
    (hfreshS : ∀ s ∈ db.services, s.oid ≠ db.nextId) :
    create_service db u d = (.error .e403, db) ∧
    ((set_provider_mode db u true).2.users
        = l1 ++ { u with provider_mode := true } :: l2) ∧
    (∃ svc db2,
      create_service (set_provider_mode db u true).2
          { u with provider_mode := true } d = (.ok (some svc), db2) ∧
      svc.provider_id = currentId u ∧
      db2.services = db.services ++ [svc] ∧
      ((set_provider_mode db2 { u with provider_mode := true } false).2.services
          = db2.services) ∧
      (∀ sid, to_object_id sid = some svc.oid →
        isOkE (update_service
            (set_provider_mode db2 { u with provider_mode := true } false).2
            { u with provider_mode := false } sid pl now2).1 = true ∧
        (delete_service
            (set_provider_mode db2 { u with provider_mode := true } false).2
            { u with provider_mode := false } sid).1 = .ok true)) := by
  have hg : ∀ b : Bool,
      updateFirst (fun v => v.oid = u.oid)
        (fun v => { v with provider_mode := b }) db.users
      = l1 ++ ({ u with provider_mode := b }) :: l2 := by
    intro b
    rw [hsplit, updateFirst_append_left _ _ _ _
      (by intro v hv; simpa using hl1 v hv)]
    simp [updateFirst]
  have hdb1 : (set_provider_mode db u true).2
      = { db with users := l1 ++ { u with provider_mode := true } :: l2 } := by
    simp only [set_provider_mode, hparseU]
    rw [hg]
  refine ⟨by simp [create_service, hmode], by rw [hdb1], ?_⟩
  rw [hdb1]
  have hsfind : (db.services ++
      [serviceDocOf db { u with provider_mode := true } d]).find?
        (fun s => s.oid = db.nextId)
      = some (serviceDocOf db { u with provider_mode := true } d) := by
    rw [List.find?_append]
    have h1 : db.services.find? (fun s => s.oid = db.nextId) = none := by
      rw [List.find?_eq_none]
      intro s hs
      simpa using hfreshS s hs
    simp [h1, serviceDocOf]
  refine ⟨serviceDocOf db { u with provider_mode := true } d,
    { db with
      users := l1 ++ { u with provider_mode := true } :: l2,
      services := db.services ++
        [serviceDocOf db { u with provider_mode := true } d],
      nextId := db.nextId + 1 },
    ?_, rfl, rfl, set_provider_mode_keeps_services _ _ _, ?_⟩
  · have hsfind' := hsfind
    simp only [serviceDocOf] at hsfind'
    simp only [create_service, insertService]
    rw [if_neg (by simp)]
    rw [hsfind']
    rfl
  · intro sid hsid
    have hs3 : (set_provider_mode
        { db with
          users := l1 ++ { u with provider_mode := true } :: l2,
          services := db.services ++
            [serviceDocOf db { u with provider_mode := true } d],
          nextId := db.nextId + 1 }
        { u with provider_mode := true } false).2.services
        = db.services ++ [serviceDocOf db { u with provider_mode := true } d] := by
      rw [set_provider_mode_keeps_services]
    have hsfind2 : (db.services ++
        [serviceDocOf db { u with provider_mode := true } d]).find?
          (fun s => s.oid =
            (serviceDocOf db { u with provider_mode := true } d).oid)
        = some (serviceDocOf db { u with provider_mode := true } d) := hsfind
    have hown : ¬ ((serviceDocOf db { u with provider_mode := true } d).provider_id
        ≠ currentId ({ u with provider_mode := false } : UserDoc)) := by
      simp [serviceDocOf, currentId]
    constructor
    · simp only [update_service, hsid, hs3, hsfind2]
      rw [if_neg hown]
      rfl
    · simp only [delete_service, hsid, hs3, hsfind2]
      rw [if_neg hown]

/-- A user fixture with provider mode off. -/
def uD : UserDoc := { oid := 4, name := "D", email := "d@x.com" }

/-- Store fixture holding only `uD`. -/
def dbD : DB := { users := [uD], nextId := 5 }

/-- A service-creation request fixture. -/
def reqC : ServiceCreateRequest :=
  { name := "sv", description := "dd", price := 50, category := "c" }

/-- Witness for C6 at `dbD`. -/
theorem provider_mode_gate_witness :
    create_service dbD uD reqC = (.error .e403, dbD) ∧
    ((set_provider_mode dbD uD true).2.users
        = [] ++ { uD with provider_mode := true } :: []) ∧
    (∃ svc db2,
      create_service (set_provider_mode dbD uD true).2
          { uD with provider_mode := true } reqC = (.ok (some svc), db2) ∧
      svc.provider_id = currentId uD ∧
      db2.services = dbD.services ++ [svc] ∧
      ((set_provider_mode db2 { uD with provider_mode := true } false).2.services
          = db2.services) ∧
      (∀ sid, to_object_id sid = some svc.oid →
        isOkE (update_service
            (set_provider_mode db2 { uD with provider_mode := true } false).2
            { uD with provider_mode := false } sid reqU 7).1 = true ∧
        (delete_service
            (set_provider_mode db2 { uD with provider_mode := true } false).2
            { uD with provider_mode := false } sid).1 = .ok true)) :=
  provider_mode_gate dbD uD [] [] reqC reqU 7
    (by decide) (by decide) (by decide) (by decide) (by decide)

/-- C4: a successful login appends the fresh token to the user's token
array and invalidates nothing: after two successive successful logins both
new tokens, and every previously issued token of that user, still resolve
through `get_current_user` to that user. -/
theorem multi_session_logins (db : DB) (H : String → String)
    (iso : Int → String) (t1 t2 : String) (p : LoginRequest)
    (l1 l2 : List UserDoc) (u : UserDoc) (cred : Cred)
    (hsplit : db.users = l1 ++ u :: l2)
    (hl1email : ∀ v ∈ l1, v.email ≠ lowerStr p.email)
    (hl1oid : ∀ v ∈ l1, v.oid ≠ u.oid)
    (hemail : u.email = lowerStr p.email)
    (hcred : u.password = some cred)
    (hverify : H (cred.salt ++ p.password) = cred.hash)
    (hfresh1 : ∀ v ∈ db.users, t1 ∉ v.tokens)
    (hfresh2 : ∀ v ∈ db.users, t2 ∉ v.tokens)
    (hprev : ∀ t ∈ u.tokens, ∀ v ∈ l1, t ∉ v.tokens) :
    ∃ view1 db1, login db H iso t1 p = (.ok (view1, t1), db1) ∧
    ∃ view2 db2, login db1 H iso t2 p = (.ok (view2, t2), db2) ∧
    db2.users = l1 ++
      { u with password := some cred, tokens := (u.tokens ++ [t1]) ++ [t2] } :: l2 ∧
    (∀ a t, parseBearer a = some t → (t = t1 ∨ t = t2 ∨ t ∈ u.tokens) →
      ∃ w, get_current_user db2 (some a) = .ok w ∧ w.oid = u.oid ∧
        t ∈ w.tokens) := by
  have hfindu : db.users.find? (fun v => v.email = lowerStr p.email) = some u := by
    rw [hsplit, List.find?_append]
    have h1 : l1.find? (fun v => v.email = lowerStr p.email) = none := by
      rw [List.find?_eq_none]
      intro v hv
      simpa using hl1email v hv
    rw [h1]
    simp [hemail]
  have hupd1 : updateFirst (fun v => v.oid = u.oid)
      (fun v => { v with tokens := v.tokens ++ [t1] }) db.users
      = l1 ++ { u with password := some cred, tokens := u.tokens ++ [t1] } :: l2 := by
    rw [hsplit, updateFirst_append_left _ _ _ _
      (by intro v hv; simpa using hl1oid v hv)]
    simp [updateFirst, hcred]
  have hlog1 : login db H iso t1 p =
      (.ok (serialize iso (userDocToValues u), t1),
       { db with users := l1 ++ { u with password := some cred, tokens := u.tokens ++ [t1] } :: l2 }) := by
    simp only [login, hfindu, hcred, verify_password, hverify, decide_True,
      if_true]
    rw [hupd1]
  have hfindu1 : (l1 ++ ({ u with password := some cred, tokens := u.tokens ++ [t1] }) :: l2).find?
      (fun v => v.email = lowerStr p.email)
      = some { u with password := some cred, tokens := u.tokens ++ [t1] } := by
    rw [List.find?_append]
    have h1 : l1.find? (fun v => v.email = lowerStr p.email) = none := by
      rw [List.find?_eq_none]
      intro v hv
      simpa using hl1email v hv
    rw [h1]
    simp [hemail]
  have hupd2 : updateFirst (fun v => v.oid = u.oid)
      (fun v => { v with tokens := v.tokens ++ [t2] })
      (l1 ++ ({ u with password := some cred, tokens := u.tokens ++ [t1] }) :: l2)
      = l1 ++ { u with password := some cred, tokens := (u.tokens ++ [t1]) ++ [t2] } :: l2 := by
    rw [updateFirst_append_left _ _ _ _
      (by intro v hv; simpa using hl1oid v hv)]
    simp [updateFirst]
  have hlog2 : login { db with users := l1 ++ { u with password := some cred, tokens := u.tokens ++ [t1] } :: l2 } H iso t2 p =
      (.ok (serialize iso (userDocToValues
          { u with password := some cred, tokens := u.tokens ++ [t1] }), t2),
       { db with users := l1 ++ { u with password := some cred, tokens := (u.tokens ++ [t1]) ++ [t2] } :: l2 }) := by
    simp only [login, hfindu1, verify_password, hverify, decide_True, if_true]
    rw [hupd2]
  refine ⟨_, _, hlog1, _, _, hlog2, rfl, ?_⟩
  intro a t ha ht
  have hane : a ≠ "" := by
    intro h
    subst h
    rw [show parseBearer "" = none from by decide] at ha
    exact Option.noConfusion ha
  have hmem2 : t ∈ (u.tokens ++ [t1]) ++ [t2] := by
    rcases ht with h | h | h
    · subst h; simp
    · subst h; simp
    · simp [h]
  have hl1t : l1.find? (fun v => decide (t ∈ v.tokens)) = none := by
    rw [List.find?_eq_none]
    intro v hv
    have hvdb : v ∈ db.users := by
      rw [hsplit]; exact List.mem_append_left _ hv
    rcases ht with h | h | h
    · subst h; simpa using hfresh1 v hvdb
    · subst h; simpa using hfresh2 v hvdb
    · simpa using hprev t h v hv
  have hfind2 : (l1 ++ ({ u with password := some cred, tokens := (u.tokens ++ [t1]) ++ [t2] }) :: l2).find?
      (fun v => v.tokens.contains t)
      = some { u with password := some cred, tokens := (u.tokens ++ [t1]) ++ [t2] } := by
    have h2 : (l1 ++ ({ u with password := some cred, tokens := (u.tokens ++ [t1]) ++ [t2] }) :: l2).find?
        (fun v => decide (t ∈ v.tokens))
        = some { u with password := some cred, tokens := (u.tokens ++ [t1]) ++ [t2] } := by
      rw [List.find?_append, hl1t,
        List.find?_cons_of_pos _ (by simpa using hmem2)]
      rfl
    simpa [List.contains] using h2
  refine ⟨{ u with password := some cred, tokens := (u.tokens ++ [t1]) ++ [t2] }, ?_, rfl, hmem2⟩
  simp only [get_current_user]
  rw [if_neg hane]
  simp only [ha, hfind2]

/-- A registered user fixture with a password and one session token. -/
def uL : UserDoc :=
  { oid := 0, name := "N", email := "a@x.com",
    password := some { salt := "s", hash := "spw#" }, tokens := ["t0"] }

/-- Store fixture holding `uL`. -/
def dbL : DB := { users := [uL], nextId := 1 }

/-- Witness for C4 at `dbL`: logins issuing `t1` then `t2`. -/
theorem multi_session_logins_witness :
    ∃ view1 db1, login dbL Hx isoW "t1"
      { email := "A@x.com", password := "pw" } = (.ok (view1, "t1"), db1) ∧
    ∃ view2 db2, login db1 Hx isoW "t2"
      { email := "A@x.com", password := "pw" } = (.ok (view2, "t2"), db2) ∧
    db2.users = [] ++
      { uL with password := some { salt := "s", hash := "spw#" }, tokens := (uL.tokens ++ ["t1"]) ++ ["t2"] } :: [] ∧
    (∀ a t, parseBearer a = some t →
      (t = "t1" ∨ t = "t2" ∨ t ∈ uL.tokens) →
      ∃ w, get_current_user db2 (some a) = .ok w ∧ w.oid = uL.oid ∧
        t ∈ w.tokens) :=
  multi_session_logins dbL Hx isoW "t1" "t2"
    { email := "A@x.com", password := "pw" } [] [] uL
    { salt := "s", hash := "spw#" }
    (by decide) (by decide) (by decide) (by decide) (by decide) (by decide)
    (by decide) (by decide) (by decide)

/-- The view `login` returns at the `dbL` fixture: the serialization of
the user document as read before the token push — its `tokens` entry
still `["t0"]`. -/
def viewL : List (String × Value) :=
  [("name", .vstr "N"), ("email", .vstr "a@x.com"), ("country", .vnull),
   ("province", .vnull), ("provider_mode", .vbool false),
   ("avatar_url", .vnull),
   ("password", .vstrDict [("salt", "s"), ("hash", "spw#")]),
   ("tokens", .vstrList ["t0"]), ("id", .vstr "0")]

/-- C9 counterexample: at `dbL`, a successful login pushes `t1` into the
stored token array (`["t0", "t1"]` afterwards), yet the returned user view
carries `tokens = ["t0"]` — the view does not reflect the post-append
state, refuting the claim as stated. -/
theorem login_view_counterexample :
    (login dbL Hx isoW "t1" { email := "a@x.com", password := "pw" }).1
      = .ok (viewL, "t1") ∧
    ((login dbL Hx isoW "t1"
        { email := "a@x.com", password := "pw" }).2.users.find?
      (fun v => v.oid = 0)).map (fun v => v.tokens) = some ["t0", "t1"] ∧
    viewL.find? (fun q => q.1 = "tokens")
      = some ("tokens", .vstrList ["t0"]) ∧
    Value.vstrList ["t0"] ≠ Value.vstrList ["t0", "t1"] := by
  refine ⟨by decide, by decide, by decide, by decide⟩

/-- C9 amended: a successful login returns the new token together with
the user view serialized from the document as read **before** the token
append — its `tokens` entry is the old token list — while the stored
document afterwards carries the appended list, which always differs. -/
theorem login_returns_pre_append_view (db : DB) (H : String → String)
    (iso : Int → String) (token : String) (p : LoginRequest)
    (l1 l2 : List UserDoc) (u : UserDoc) (cred : Cred)
    (hsplit : db.users = l1 ++ u :: l2)
    (hl1email : ∀ v ∈ l1, v.email ≠ lowerStr p.email)
    (hl1oid : ∀ v ∈ l1, v.oid ≠ u.oid)
    (hemail : u.email = lowerStr p.email)
    (hcred : u.password = some cred)
    (hverify : H (cred.salt ++ p.password) = cred.hash) :
    ∃ db1, login db H iso token p
        = (.ok (serialize iso (userDocToValues u), token), db1) ∧
      db1.users = l1 ++ { u with password := some cred, tokens := u.tokens ++ [token] } :: l2 ∧
      (serialize iso (userDocToValues u)).find? (fun q => q.1 = "tokens")
        = some ("tokens", .vstrList u.tokens) ∧
      u.tokens ≠ u.tokens ++ [token] := by
  have hfindu : db.users.find? (fun v => v.email = lowerStr p.email) = some u := by
    rw [hsplit, List.find?_append]
    have h1 : l1.find? (fun v => v.email = lowerStr p.email) = none := by
      rw [List.find?_eq_none]
      intro v hv
      simpa using hl1email v hv
    rw [h1]
    simp [hemail]
  have hupd1 : updateFirst (fun v => v.oid = u.oid)
      (fun v => { v with tokens := v.tokens ++ [token] }) db.users
      = l1 ++ { u with password := some cred, tokens := u.tokens ++ [token] } :: l2 := by
    rw [hsplit, updateFirst_append_left _ _ _ _
      (by intro v hv; simpa using hl1oid v hv)]
    simp [updateFirst, hcred]
  refine ⟨{ db with users := l1 ++ { u with password := some cred, tokens := u.tokens ++ [token] } :: l2 },
    ?_, rfl, ?_, ?_⟩
  · simp only [login, hfindu, hcred, verify_password, hverify, decide_True,
      if_true]
    rw [hupd1]
  · have hfst : ∀ (k : String) (v : Value), (dtv iso (k, v)).1 = k := by
      intro k v
      cases v <;> rfl
    simp [serialize, userDocToValues, eraseKey, setKey, hfst]
    rfl
  · intro h
    have := congrArg List.length h
    simp at this

/-- Witness for the amended C9 at `dbL`. -/
theorem login_returns_pre_append_view_witness :
    ∃ db1, login dbL Hx isoW "t9" { email := "a@x.com", password := "pw" }
        = (.ok (serialize isoW (userDocToValues uL), "t9"), db1) ∧
      db1.users = [] ++ { uL with password := some { salt := "s", hash := "spw#" }, tokens := uL.tokens ++ ["t9"] } :: [] ∧
      (serialize isoW (userDocToValues uL)).find? (fun q => q.1 = "tokens")
        = some ("tokens", .vstrList uL.tokens) ∧
      uL.tokens ≠ uL.tokens ++ ["t9"] :=
  login_returns_pre_append_view dbL Hx isoW "t9"
    { email := "a@x.com", password := "pw" } [] [] uL
    { salt := "s", hash := "spw#" }
    (by decide) (by decide) (by decide) (by decide) (by decide) (by decide)
